import Mathlib

/-!
Verification of the juju-dqlite-backstop cluster membership recovery engine.

The development shallowly embeds the Go sources:
  * `cmd/juju-dqlite-backstop/main.go` — the recovery orchestrator entry point;
  * package `database` (`NodeManager`) — data-dir management, cluster server
    store access, membership collapse, node-info rewrite, TLS options;
  * package `net` (`ExternalIPs`) — the network evidence collector;
  * package `agent` (`configInternal`, `format-2.0.go`) — agent configuration.

Filesystem and third-party library effects (dqlite reconfiguration, the
go-dqlite YAML node store, YAML and certificate codecs, tag parsing) are
embedded as explicit state on a `World` value or as oracle parameters, so
every operation is a pure Lean function mirroring the Go control flow.
-/

/-- Structured error model mirroring the juju errors taxonomy used by the
sources: `errors.NotFound`, `errors.NotSupportedf`, plain `errors.New` /
`fmt.Errorf`, and `errors.Annotate` wrapping. -/
inductive GoError where
  | notFound (msg : String)
  | notSupported (msg : String)
  | leaderNotFound
  | generic (msg : String)
  | annotated (msg : String) (inner : GoError)
deriving DecidableEq, Repr

/-- Membership record of one Dqlite node, mirroring go-dqlite's
`client.NodeInfo` (`ID uint64`, `Address string`, `Role NodeRole`). -/
structure NodeInfo where
  id : Nat
  address : String
  role : Nat
deriving DecidableEq, Repr, Inhabited

/-- Constant `dqliteBootstrapBindIP` from package `database`. -/
def dqliteBootstrapBindIP : String := "127.0.0.1"

/-- Constant `dqliteDataDir` from package `database`. -/
def dqliteDataDir : String := "dqlite"

/-- Constant `dqlitePort` from package `database`. -/
def dqlitePort : Nat := 17666

/-- Constant `dqliteClusterFileName` from package `database`. -/
def dqliteClusterFileName : String := "cluster.yaml"

/-- Embedding of Go `filepath.Join` on two non-degenerate components as used
by the sources (`filepath.Join(dataDir, "dqlite")`, `path.Join(dir, file)`). -/
def joinPath (a b : String) : String :=
  if a = "" then b else a ++ "/" ++ b

/-- Embedding of Go `strings.HasPrefix(s, pre)`, computed on the character
data. -/
def hasPrefixGo (s pre : String) : Bool :=
  pre.data.isPrefixOf s.data

/-- Bare host component of a `host:port` address: everything before the first
colon. Used by survivor resolution to compare addresses ignoring ports. -/
def hostOf (s : String) : String :=
  ⟨s.data.takeWhile (fun c => c ≠ ':')⟩

/-- Modelled from the spec: the Leader Resolution Algorithm
`ResolveSurvivor(members, advertisedAddrs)` of spec section 4.4 is not present
under `src/`; only its contract is specified. Step 1 chooses the evidence set:
with exactly one member, or more than one advertised address, it falls back to
the locally observed addresses (the Network Evidence Collector's output,
passed here as `localAddrs`); otherwise the advertised addresses are the
evidence. Steps 2-4 reduce evidence and member addresses to bare hosts and
return the first member in membership order whose host is in the evidence
host set, failing with `LeaderNotFoundError` when none matches. -/
def resolveSurvivor (members : List NodeInfo) (advertisedAddrs localAddrs : List String) :
    Except GoError NodeInfo :=
  let evidence :=
    if members.length = 1 ∨ advertisedAddrs.length > 1 then localAddrs
    else advertisedAddrs
  let hosts := evidence.map hostOf
  match members.find? (fun m => hosts.contains (hostOf m.address)) with
  | some m => .ok m
  | none => .error .leaderNotFound

/-- Evidence host set consulted by `resolveSurvivor`, exposed for stating
properties about it. -/
def survivorHosts (members : List NodeInfo) (advertisedAddrs localAddrs : List String) :
    List String :=
  (if members.length = 1 ∨ advertisedAddrs.length > 1 then localAddrs
   else advertisedAddrs).map hostOf

/-! ## Network evidence collector (package `net`, `ExternalIPs`) -/

/-- Embedding of Go's `net.IP` as the cases `ExternalIPs` distinguishes: a
plain IPv4 address, an IPv4-mapped IPv6 address (the only IPv6 form for which
`To4` is non-nil), and any other IPv6 address carrying its loopback status
(`::1`). -/
inductive GoIP where
  | ipv4 (a b c d : Nat)
  | ipv4in6 (a b c d : Nat)
  | ipv6 (repr : String) (loopback : Bool)
deriving DecidableEq, Repr

/-- Go `net.IP.IsLoopback`: for an address with a 4-byte form, the first
octet is 127; otherwise equality with `::1`. -/
def GoIP.isLoopback : GoIP → Bool
  | .ipv4 a _ _ _ => a = 127
  | .ipv4in6 a _ _ _ => a = 127
  | .ipv6 _ lb => lb

/-- Go `net.IP.To4`: the 4-byte form when one exists, `none` for other IPv6
addresses. -/
def GoIP.to4 : GoIP → Option (Nat × Nat × Nat × Nat)
  | .ipv4 a b c d => some (a, b, c, d)
  | .ipv4in6 a b c d => some (a, b, c, d)
  | .ipv6 _ _ => none

/-- Dotted-quad rendering of a 4-byte IP, mirroring `net.IP.String` on a
`To4` result. -/
def quadString : Nat × Nat × Nat × Nat → String
  | (a, b, c, d) =>
    toString a ++ "." ++ toString b ++ "." ++ toString c ++ "." ++ toString d

/-- One local network interface as `ExternalIPs` inspects it: the `FlagUp`
and `FlagLoopback` bits and the bound addresses (the `Addrs()` result on the
success path). -/
structure Iface where
  up : Bool
  loopback : Bool
  addrs : List GoIP
deriving Repr

/-- Insertion into juju's `set.Strings` (`Add`): set semantics, so a string
already present is not added again. -/
def addString (acc : List String) (s : String) : List String :=
  if acc.contains s then acc else acc ++ [s]

/-- Body of the address loop of `ExternalIPs`: skip loopback IPs and
addresses with no 4-byte form, add the dotted-quad string of the rest. -/
def addIPAddr (acc : List String) (ip : GoIP) : List String :=
  if ip.isLoopback then acc
  else match ip.to4 with
    | none => acc
    | some q => addString acc (quadString q)

/-- Body of the interface loop of `ExternalIPs`: skip downed and loopback
interfaces, fold the address loop over the rest. -/
def addIfaceAddrs (acc : List String) (iface : Iface) : List String :=
  if !iface.up then acc
  else if iface.loopback then acc
  else iface.addrs.foldl addIPAddr acc

/-- Addresses collected by the interface loop of `ExternalIPs`. -/
def collectIPs (ifaces : List Iface) : List String :=
  ifaces.foldl addIfaceAddrs []

/-- Embedding of `net.ExternalIPs` (package `net`): enumerate interfaces,
collect qualifying IPv4 address strings, and fail with a juju `NotFound`
error when the resulting set is empty. -/
def ExternalIPs (ifaces : List Iface) : Except GoError (List String) :=
  let addresses := collectIPs ifaces
  if addresses.isEmpty then .error (.notFound "ip addresses") else .ok addresses

/-! ## Agent configuration (package `agent`) -/

/-- Constant `NixDataDir`: agent data location on *nix systems. -/
def NixDataDir : String := "/var/lib/juju"

/-- Constant `NixLogDir`: log location on *nix systems. -/
def NixLogDir : String := "/var/log"

/-- Directory paths used by the agent (`agent.Paths`). -/
structure Paths where
  dataDir : String
  logDir : String
  confDir : String
deriving DecidableEq, Repr

/-- Value `agent.DefaultPaths`: the default paths for an agent on the
current (unix-like) OS. -/
def DefaultPaths : Paths :=
  { dataDir := NixDataDir, logDir := NixLogDir ++ "/juju", confDir := "/etc/juju" }

/-- Embedding of `agent.NewPathsWithDefaults`: start from `DefaultPaths` and
keep every non-empty field of the input. -/
def NewPathsWithDefaults (p : Paths) : Paths :=
  { dataDir := if p.dataDir ≠ "" then p.dataDir else DefaultPaths.dataDir
    logDir := if p.logDir ≠ "" then p.logDir else DefaultPaths.logDir
    confDir := if p.confDir ≠ "" then p.confDir else DefaultPaths.confDir }

/-- Opaque stand-in for a parsed `names.Tag` (the juju names library is a
third-party boundary; only parse success or failure matters here). -/
structure GoTag where
  raw : String
deriving DecidableEq, Repr

/-- Network and auth details a controller needs (`agent.StateServingInfo`).
The `default` value is the Go zero value of the struct. -/
structure StateServingInfo where
  apiPort : Nat
  controllerAPIPort : Nat
  cert : String
  privateKey : String
  caPrivateKey : String
  sharedSecret : String
  systemIdentity : String
deriving DecidableEq, Repr, Inhabited

/-- Internal holder of the api server addresses (`agent.apiDetails`). -/
structure apiDetails where
  addresses : List String
deriving DecidableEq, Repr

/-- Embedding of `agent.configInternal`, the concrete agent configuration
produced by the formatter. -/
structure configInternal where
  configFilePath : String
  paths : Paths
  tag : GoTag
  controller : GoTag
  model : GoTag
  caCert : String
  servingInfo : Option StateServingInfo
  apiDetails : Option apiDetails
deriving DecidableEq, Repr

/-- Accessor `configInternal.DataDir`. -/
def configInternal.DataDir (c : configInternal) : String :=
  c.paths.dataDir

/-- Accessor `configInternal.CACert`. -/
def configInternal.CACert (c : configInternal) : String :=
  c.caCert

/-- Embedding of `configInternal.StateServingInfo`: the stored details and
`true`, or the zero value and `false` when the config has none. -/
def configInternal.StateServingInfo (c : configInternal) : StateServingInfo × Bool :=
  match c.servingInfo with
  | none => (default, false)
  | some info => (info, true)

/-- Go's `append([]string{}, xs...)`: element-by-element copy of a slice into
a freshly allocated one. -/
def copySlice (xs : List String) : List String :=
  xs.foldl (fun acc x => acc ++ [x]) []

/-- Embedding of `configInternal.APIAddresses`: an empty slice together with
an error when no api details were parsed, otherwise a fresh copy of the
stored addresses and no error. -/
def configInternal.APIAddresses (c : configInternal) : List String × Option GoError :=
  match c.apiDetails with
  | none => ([], some (.generic "No apidetails in config"))
  | some d => (copySlice d.addresses, none)

/-- Serialization struct of the 2.0 agent config format
(`format_2_0Serialization`), as produced by the YAML codec: a missing YAML
key leaves the Go zero value ("" or an empty slice). -/
structure format_2_0Serialization where
  tag : String
  dataDir : String
  logDir : String
  caCert : String
  controller : String
  model : String
  apiAddresses : List String
  apiPassword : String
  controllerCert : String
  controllerKey : String
  caPrivateKey : String
  apiPort : Nat
  controllerAPIPort : Nat
  sharedSecret : String
  systemIdentity : String
deriving DecidableEq, Repr

/-- Boundary oracle for the juju names library parsers used by the 2.0
formatter (`names.ParseTag`, `ParseControllerTag`, `ParseModelTag`): `none`
is a parse failure. -/
structure ParseEnv where
  parseTag : String → Option GoTag
  parseControllerTag : String → Option GoTag
  parseModelTag : String → Option GoTag

/-- Embedding of `formatter_2_0.unmarshal` (format-2.0.go): parse the three
tags, build the config with paths defaulted, then attach `apiDetails` only
when the serialized address list is non-empty and `servingInfo` only when
the serialized controller key is non-empty. -/
def formatter_2_0.unmarshal (env : ParseEnv) (format : format_2_0Serialization) :
    Except GoError configInternal :=
  match env.parseTag format.tag with
  | none => .error (.generic "cannot parse tag")
  | some tag =>
  match env.parseControllerTag format.controller with
  | none => .error (.generic "cannot parse controller tag")
  | some controllerTag =>
  match env.parseModelTag format.model with
  | none => .error (.generic "cannot parse model tag")
  | some modelTag =>
    let config : configInternal :=
      { configFilePath := ""
        tag := tag
        paths := NewPathsWithDefaults
          { dataDir := format.dataDir, logDir := format.logDir, confDir := "" }
        controller := controllerTag
        model := modelTag
        caCert := format.caCert
        servingInfo := none
        apiDetails := none }
    let config :=
      if format.apiAddresses.length > 0 then
        { config with apiDetails := some { addresses := format.apiAddresses } }
      else config
    let info : StateServingInfo :=
      { cert := format.controllerCert
        privateKey := format.controllerKey
        caPrivateKey := format.caPrivateKey
        apiPort := format.apiPort
        controllerAPIPort := format.controllerAPIPort
        sharedSecret := format.sharedSecret
        systemIdentity := format.systemIdentity }
    let config :=
      if format.controllerKey.length ≠ 0 then
        { config with servingInfo := some info }
      else config
    .ok config

/-! ## TLS and application options (packages `database`, `app`) -/

/-- Opaque parsed certificate pair (`tls.Certificate`), a boundary value. -/
structure TLSCert where
  cert : String
  key : String
deriving DecidableEq, Repr

/-- Boundary oracle for `tls.X509KeyPair`: `none` is a parse failure. -/
structure TLSEnv where
  x509KeyPair : String → String → Option TLSCert

/-- Observable shape of a `tls.Config` as built by `WithTLSOption`. -/
structure TLSConfigModel where
  clientCAs : List String
  rootCAs : List String
  certs : List TLSCert
  insecureSkipVerify : Bool
deriving DecidableEq, Repr

/-- Dqlite application options (`app.WithAddress`, `app.WithTLS`,
`app.WithCluster`), kept as data. -/
inductive AppOption where
  | withAddress (addr : String)
  | withTLS (listen dial : TLSConfigModel)
  | withCluster (peers : List String)
deriving DecidableEq, Repr

/-! ## World state: filesystem and consensus-log effects -/

/-- Content of a file the engine touches, kept structured because the YAML
codec (gopkg.in/yaml and the go-dqlite `YamlNodeStore` format) is a
third-party boundary: `servers` is a marshalled `[]NodeInfo` (cluster.yaml),
`node` a marshalled single `NodeInfo` (info.yaml), and `corrupt` stands for
bytes the codec rejects. -/
inductive FileContent where
  | servers (list : List NodeInfo)
  | node (info : NodeInfo)
  | corrupt (raw : String)
deriving DecidableEq, Repr

/-- Observable machine state threaded through the stateful operations:
created directories with their creation mode, file contents by path, and the
membership recorded in the Dqlite Raft log (owned by the external consensus
library, reached only through `ReconfigureMembership`). -/
structure World where
  dirs : List (String × Nat)
  files : List (String × FileContent)
  raftMembers : List NodeInfo
deriving DecidableEq, Repr

/-- Lookup of a file's content by path. -/
def lookupFile (files : List (String × FileContent)) (p : String) : Option FileContent :=
  (files.find? (fun f => f.1 = p)).map (·.2)

/-- Overwrite (or create) the file at path `p`, mirroring an atomic
write-then-rename. -/
def writeFile : List (String × FileContent) → String → FileContent → List (String × FileContent)
  | [], p, c => [(p, c)]
  | f :: t, p, c => if f.1 = p then (p, c) :: t else f :: writeFile t p c

/-- Go `os.MkdirAll(dir, mode)` on the success path: creates the directory
with the given mode when absent, and is a no-op when it already exists. -/
def mkdirAll (w : World) (dir : String) (mode : Nat) : World :=
  if w.dirs.any (fun d => d.1 = dir) then w
  else { w with dirs := w.dirs ++ [(dir, mode)] }

/-- True when the directory exists in the world. -/
def dirExists (w : World) (dir : String) : Bool :=
  w.dirs.any (fun d => d.1 = dir)

/-- Recorded creation mode of a directory. -/
def dirMode (w : World) (dir : String) : Option Nat :=
  (w.dirs.find? (fun d => d.1 = dir)).map (·.2)

/-! ## NodeManager (package `database`) -/

/-- Embedding of `database.NodeManager`: the agent config, the Dqlite port,
and the cached `dataDir` field ("" when not yet ensured, as the zero value of
the Go string field). -/
structure NodeManager where
  cfg : configInternal
  port : Nat
  dataDir : String
deriving DecidableEq, Repr

/-- Embedding of `database.NewNodeManager`: captures the config and sets the
port to `dqlitePort`; `dataDir` starts at the zero value. -/
def NewNodeManager (cfg : configInternal) : NodeManager :=
  { cfg := cfg, port := dqlitePort, dataDir := "" }

/-- Embedding of `NodeManager.EnsureDataDir`: when the cached `dataDir` is
still the zero value, join the agent data dir with "dqlite", create it with
mode 0700 (448) and cache it; afterwards return the cached path. Returns the
path together with the updated manager and world. -/
def EnsureDataDir (m : NodeManager) (w : World) : String × NodeManager × World :=
  if m.dataDir = "" then
    let dir := joinPath m.cfg.DataDir dqliteDataDir
    (dir, { m with dataDir := dir }, mkdirAll w dir 448)
  else (m.dataDir, m, w)

/-- Opening of the go-dqlite `client.YamlNodeStore` on `cluster.yaml`
(`NodeManager.nodeClusterStore`): an absent file yields an empty store, a
marshalled server list yields that list, anything else fails to parse. -/
def nodeClusterStore (m : NodeManager) (w : World) : Except GoError (List NodeInfo) :=
  match lookupFile w.files (joinPath m.dataDir dqliteClusterFileName) with
  | none => .ok []
  | some (.servers list) => .ok list
  | some _ => .error (.annotated "opening Dqlite cluster node store" (.generic "unmarshal"))

/-- Embedding of `NodeManager.ClusterServers`: open the node store and return
its servers (`store.Get`). -/
def ClusterServers (m : NodeManager) (w : World) : Except GoError (List NodeInfo) :=
  match nodeClusterStore m w with
  | .error e => .error e
  | .ok servers => .ok servers

/-- Outcome oracle for the external library calls a single run makes:
`dqlite.ReconfigureMembership` may fail (for example with an unsafe-state
condition) independently of the modelled world. `none` means success. -/
structure Env where
  reconfigureOutcome : Option GoError
deriving Repr

/-- Embedding of `dqlite.ReconfigureMembership(dataDir, servers)`: a
third-party boundary that, on success, rewrites the Raft log membership. -/
def ReconfigureMembership (env : Env) (w : World) (servers : List NodeInfo) :
    Except GoError World :=
  match env.reconfigureOutcome with
  | some e => .error e
  | none => .ok { w with raftMembers := servers }

/-- The node store `Set`: writes the marshalled server list to
`cluster.yaml` in the data directory. -/
def storeSet (m : NodeManager) (w : World) (servers : List NodeInfo) : World :=
  { w with files := writeFile w.files (joinPath m.dataDir dqliteClusterFileName) (.servers servers) }

/-- Embedding of `NodeManager.SetClusterServers`: open the node store, then
rewrite the Raft log membership via `ReconfigureMembership`, and only if that
succeeded write the same list to the node store. The returned world is the
state after the call, unchanged on error. -/
def SetClusterServers (env : Env) (m : NodeManager) (w : World) (servers : List NodeInfo) :
    Except GoError Unit × World :=
  match nodeClusterStore m w with
  | .error e => (.error e, w)
  | .ok _ =>
    match ReconfigureMembership env w servers with
    | .error e => (.error (.annotated "reconfiguring Dqlite cluster membership" e), w)
    | .ok w1 => (.ok (), storeSet m w1 servers)

/-- Embedding of `NodeManager.SetNodeInfo`: marshal the input record and
write it to `info.yaml` in the Dqlite data directory. -/
def SetNodeInfo (m : NodeManager) (w : World) (server : NodeInfo) : World :=
  { w with files := writeFile w.files (joinPath m.dataDir "info.yaml") (.node server) }

/-- Embedding of `NodeManager.IsExistingNode`: ensure the data directory and
report whether it is non-empty (`Readdirnames(1)` finds an entry), modelled
as some file living under the data directory. -/
def IsExistingNode (m : NodeManager) (w : World) : Bool × NodeManager × World :=
  let (dir, m1, w1) := EnsureDataDir m w
  (w1.files.any (fun f => hasPrefixGo f.1 (dir ++ "/")), m1, w1)

/-- Embedding of `NodeManager.IsBootstrappedNode`: false for a machine that
never started Dqlite; otherwise true exactly when the cluster store holds a
single server whose address starts with the loopback bootstrap bind IP. -/
def IsBootstrappedNode (m : NodeManager) (w : World) : Except GoError Bool :=
  let (extant, m1, w1) := IsExistingNode m w
  if !extant then .ok false
  else
    match ClusterServers m1 w1 with
    | .error e => .error e
    | .ok servers =>
      if servers.length ≠ 1 then .ok false
      else .ok (hasPrefixGo (servers.headD default).address dqliteBootstrapBindIP)

/-- Embedding of `NodeManager.WithAddressOption`: the `address:port` option
for the given IP and the manager's port. -/
def NodeManager.WithAddressOption (m : NodeManager) (ip : String) : AppOption :=
  .withAddress (ip ++ ":" ++ toString m.port)

/-- Embedding of `NodeManager.WithLoopbackAddressOption`: the address option
bound to the loopback bootstrap IP. -/
def NodeManager.WithLoopbackAddressOption (m : NodeManager) : AppOption :=
  m.WithAddressOption dqliteBootstrapBindIP

/-- Embedding of `NodeManager.WithClusterOption`: peers are the input
addresses suffixed with the manager's port. -/
def NodeManager.WithClusterOption (m : NodeManager) (addrs : List String) : AppOption :=
  .withCluster (addrs.map (fun addr => addr ++ ":" ++ toString m.port))

/-- Embedding of `NodeManager.WithTLSOption`: fails with a juju NotSupported
error when the agent config carries no state serving info; otherwise parses
the controller certificate and builds the listen and dial TLS configs. -/
def NodeManager.WithTLSOption (tlsEnv : TLSEnv) (m : NodeManager) :
    Except GoError AppOption :=
  let (stateInfo, ok) := m.cfg.StateServingInfo
  if !ok then
    .error (.notSupported "Dqlite node initialisation on non-controller machine/container")
  else
    let caCertPool := [m.cfg.CACert]
    match tlsEnv.x509KeyPair stateInfo.cert stateInfo.privateKey with
    | none => .error (.annotated "parsing controller certificate" (.generic "tls"))
    | some controllerCert =>
      .ok (.withTLS
        { clientCAs := caCertPool, rootCAs := [], certs := [controllerCert],
          insecureSkipVerify := false }
        { clientCAs := [], rootCAs := caCertPool, certs := [controllerCert],
          insecureSkipVerify := true })

/-! ## Recovery orchestrator (`cmd/juju-dqlite-backstop/main.go`) -/

/-- Embedding of the orchestrator body of `main` after the CLI boundary
(prompt, tag parsing and agent-config reading, out of scope per the spec):
build the `NodeManager` from the agent config, ensure the data directory,
read the cluster servers with `ClusterServers`, and print them. A successful
run returns the printed server list and the final world; any failing step
aborts (`checkErr` exits). -/
def mainRun (cfg : configInternal) (w : World) : Except GoError (List NodeInfo × World) :=
  let m := NewNodeManager cfg
  let (_dir, m1, w1) := EnsureDataDir m w
  match ClusterServers m1 w1 with
  | .error e => .error e
  | .ok nodeInfo => .ok (nodeInfo, w1)

/-! ## Fixtures for concrete runs -/

/-- Agent configuration fixture used for concrete runs: a controller agent
with the default *nix data dir and no serving info or api details. -/
def exampleConfig : configInternal :=
  { configFilePath := ""
    paths := { dataDir := "/var/lib/juju", logDir := "/var/log/juju", confDir := "" }
    tag := ⟨"machine-0"⟩
    controller := ⟨"controller-x"⟩
    model := ⟨"model-y"⟩
    caCert := ""
    servingInfo := none
    apiDetails := none }

/-- World fixture with nothing on disk and an empty Raft log. -/
def emptyWorld : World := { dirs := [], files := [], raftMembers := [] }

/-- Manager fixture whose data dir has already been ensured at the default
location. -/
def exampleManager : NodeManager :=
  { NewNodeManager exampleConfig with dataDir := "/var/lib/juju/dqlite" }

/-- Node fixture 10.0.0.1 on the Dqlite port. -/
def exampleServer : NodeInfo := { id := 1, address := "10.0.0.1:17666", role := 0 }

/-- Node fixture 10.0.0.2 on the Dqlite port. -/
def exampleServer2 : NodeInfo := { id := 2, address := "10.0.0.2:17666", role := 0 }

/-- World fixture: a two-member cluster recorded in both cluster.yaml and
the Raft log. -/
def twoServerWorld : World :=
  { dirs := []
    files := [("/var/lib/juju/dqlite/cluster.yaml",
      FileContent.servers [exampleServer, exampleServer2])]
    raftMembers := [exampleServer, exampleServer2] }

/-- World fixture: a single-member cluster on a non-loopback address. -/
def singleRemoteWorld : World :=
  { dirs := []
    files := [("/var/lib/juju/dqlite/cluster.yaml", FileContent.servers [exampleServer])]
    raftMembers := [exampleServer] }

/-- State serving info assembled by the 2.0 formatter from the serialized
controller fields. -/
def servingInfoOf (format : format_2_0Serialization) : StateServingInfo :=
  { cert := format.controllerCert
    privateKey := format.controllerKey
    caPrivateKey := format.caPrivateKey
    apiPort := format.apiPort
    controllerAPIPort := format.controllerAPIPort
    sharedSecret := format.sharedSecret
    systemIdentity := format.systemIdentity }

/-- Parse oracle fixture that accepts every tag. -/
def exampleParseEnv : ParseEnv :=
  { parseTag := fun s => some ⟨s⟩
    parseControllerTag := fun s => some ⟨s⟩
    parseModelTag := fun s => some ⟨s⟩ }

/-- Serialization fixture of an agent config file with no apiaddresses
entries and an empty controllerkey. -/
def exampleFormatNoAPI : format_2_0Serialization :=
  { tag := "machine-0", dataDir := "", logDir := "", caCert := ""
    controller := "controller-x", model := "model-y"
    apiAddresses := [], apiPassword := ""
    controllerCert := "", controllerKey := "", caPrivateKey := ""
    apiPort := 0, controllerAPIPort := 0, sharedSecret := "", systemIdentity := "" }

/-- Config obtained by unmarshalling `exampleFormatNoAPI`. -/
def exampleParsedConfig : configInternal :=
  { configFilePath := ""
    paths := NewPathsWithDefaults { dataDir := "", logDir := "", confDir := "" }
    tag := ⟨"machine-0"⟩
    controller := ⟨"controller-x"⟩
    model := ⟨"model-y"⟩
    caCert := ""
    servingInfo := none
    apiDetails := none }

/-- Certificate oracle fixture that rejects every key pair. -/
def exampleTLSEnv : TLSEnv := { x509KeyPair := fun _ _ => none }

/-! ## Helper lemmas -/

theorem copySlice_aux (xs acc : List String) :
    xs.foldl (fun acc x => acc ++ [x]) acc = acc ++ xs := by
  induction xs generalizing acc with
  | nil => simp
  | cons x t ih => simp [ih]

theorem copySlice_eq (xs : List String) : copySlice xs = xs := by
  simpa using copySlice_aux xs []

theorem mem_addString {acc : List String} {t s : String} :
    s ∈ addString acc t ↔ s ∈ acc ∨ s = t := by
  unfold addString
  split
  · rename_i h
    have ht : t ∈ acc := by simpa using h
    constructor
    · exact Or.inl
    · rintro (hs | rfl) <;> [exact hs; exact ht]
  · simp

theorem mem_addIPAddr {acc : List String} {ip : GoIP} {s : String} :
    s ∈ addIPAddr acc ip ↔
      s ∈ acc ∨ (ip.isLoopback = false ∧ ∃ q, ip.to4 = some q ∧ s = quadString q) := by
  unfold addIPAddr
  by_cases h : ip.isLoopback = true
  · simp [h]
  · simp only [Bool.not_eq_true] at h
    cases h4 : ip.to4 with
    | none => simp [h, h4]
    | some q => simp [h, h4, mem_addString]

theorem mem_foldl_addIPAddr (addrs : List GoIP) (acc : List String) (s : String) :
    s ∈ addrs.foldl addIPAddr acc ↔
      s ∈ acc ∨ ∃ ip ∈ addrs, ip.isLoopback = false ∧ ∃ q, ip.to4 = some q ∧ s = quadString q := by
  induction addrs generalizing acc with
  | nil => simp
  | cons ip t ih =>
    simp only [List.foldl_cons, ih, mem_addIPAddr, List.mem_cons]
    constructor
    · rintro ((hs | hip) | ⟨x, hx, hrest⟩)
      · exact Or.inl hs
      · exact Or.inr ⟨ip, Or.inl rfl, hip⟩
      · exact Or.inr ⟨x, Or.inr hx, hrest⟩
    · rintro (hs | ⟨x, (rfl | hx), hrest⟩)
      · exact Or.inl (Or.inl hs)
      · exact Or.inl (Or.inr hrest)
      · exact Or.inr ⟨x, hx, hrest⟩

theorem mem_addIfaceAddrs {acc : List String} {iface : Iface} {s : String} :
    s ∈ addIfaceAddrs acc iface ↔
      s ∈ acc ∨ (iface.up = true ∧ iface.loopback = false ∧
        ∃ ip ∈ iface.addrs, ip.isLoopback = false ∧ ∃ q, ip.to4 = some q ∧ s = quadString q) := by
  unfold addIfaceAddrs
  by_cases hup : iface.up = true
  · by_cases hlo : iface.loopback = true
    · simp [hup, hlo]
    · simp only [Bool.not_eq_true] at hlo
      simp [hup, hlo, mem_foldl_addIPAddr]
  · simp only [Bool.not_eq_true] at hup
    simp [hup]

theorem mem_foldl_addIfaceAddrs (ifaces : List Iface) (acc : List String) (s : String) :
    s ∈ ifaces.foldl addIfaceAddrs acc ↔
      s ∈ acc ∨ ∃ iface ∈ ifaces, iface.up = true ∧ iface.loopback = false ∧
        ∃ ip ∈ iface.addrs, ip.isLoopback = false ∧ ∃ q, ip.to4 = some q ∧ s = quadString q := by
  induction ifaces generalizing acc with
  | nil => simp
  | cons iface t ih =>
    simp only [List.foldl_cons, ih, mem_addIfaceAddrs, List.mem_cons]
    constructor
    · rintro ((hs | hif) | ⟨x, hx, hrest⟩)
      · exact Or.inl hs
      · exact Or.inr ⟨iface, Or.inl rfl, hif⟩
      · exact Or.inr ⟨x, Or.inr hx, hrest⟩
    · rintro (hs | ⟨x, (rfl | hx), hrest⟩)
      · exact Or.inl (Or.inl hs)
      · exact Or.inl (Or.inr hrest)
      · exact Or.inr ⟨x, hx, hrest⟩

/-- Membership in the result of `collectIPs`: exactly the rendered IPv4
addresses of non-loopback IPs on up, non-loopback interfaces. -/
theorem mem_collectIPs (ifaces : List Iface) (s : String) :
    s ∈ collectIPs ifaces ↔
      ∃ iface ∈ ifaces, iface.up = true ∧ iface.loopback = false ∧
        ∃ ip ∈ iface.addrs, ip.isLoopback = false ∧ ∃ q, ip.to4 = some q ∧ s = quadString q := by
  simpa using mem_foldl_addIfaceAddrs ifaces [] s

theorem lookupFile_writeFile_self (fs : List (String × FileContent)) (p : String) (c : FileContent) :
    lookupFile (writeFile fs p c) p = some c := by
  induction fs with
  | nil => simp [writeFile, lookupFile]
  | cons f t ih =>
    by_cases h : f.1 = p
    · simp [writeFile, h, lookupFile]
    · simp only [writeFile, h, if_false]
      simpa [lookupFile, List.find?_cons, h] using ih

theorem lookupFile_writeFile_ne (fs : List (String × FileContent)) (p : String) (c : FileContent)
    (q : String) (hq : q ≠ p) : lookupFile (writeFile fs p c) q = lookupFile fs q := by
  induction fs with
  | nil => simp [writeFile, lookupFile, List.find?, Ne.symm hq]
  | cons f t ih =>
    by_cases h : f.1 = p
    · subst h
      simp [writeFile, lookupFile, List.find?_cons, Ne.symm hq]
    · simp only [writeFile, h, if_false]
      by_cases hfq : f.1 = q
      · simp [lookupFile, List.find?_cons, hfq]
      · simpa [lookupFile, List.find?_cons, hfq] using ih

theorem joinPath_ne_of_length {a b c : String} (h : b.length ≠ c.length) :
    joinPath a b ≠ joinPath a c := by
  unfold joinPath
  split
  · exact fun he => h (congrArg String.length he)
  · intro he
    have hl := congrArg String.length he
    simp only [String.length_append] at hl
    omega

theorem joinPath_dqlite_ne_empty (a : String) : joinPath a dqliteDataDir ≠ "" := by
  unfold joinPath dqliteDataDir
  split
  · decide
  · intro he
    have hl := congrArg String.length he
    simp only [String.length_append] at hl
    have h6 : ("dqlite" : String).length = 6 := rfl
    have h0 : ("" : String).length = 0 := rfl
    omega

theorem resolveSurvivor_eq_find? (members : List NodeInfo) (a l : List String) :
    resolveSurvivor members a l =
      match members.find?
        (fun x => (survivorHosts members a l).contains (hostOf x.address)) with
      | some m => .ok m
      | none => .error .leaderNotFound := rfl

theorem resolveSurvivor_ok_iff (members : List NodeInfo) (a l : List String) (m : NodeInfo) :
    resolveSurvivor members a l = .ok m ↔
      members.find? (fun x => (survivorHosts members a l).contains (hostOf x.address)) = some m := by
  rw [resolveSurvivor_eq_find?]
  cases members.find? (fun x => (survivorHosts members a l).contains (hostOf x.address)) <;> simp

theorem resolveSurvivor_error_iff (members : List NodeInfo) (a l : List String) :
    resolveSurvivor members a l = .error .leaderNotFound ↔
      members.find? (fun x => (survivorHosts members a l).contains (hostOf x.address)) = none := by
  rw [resolveSurvivor_eq_find?]
  cases members.find? (fun x => (survivorHosts members a l).contains (hostOf x.address)) <;> simp

/-- C2: for every membership list and advertised-address list (and local
evidence addresses), `resolveSurvivor` returns the first member in the
original membership order whose bare host is in the evidence host set, fails
with `LeaderNotFoundError` exactly when no member's host matches, and on the
spec scenario (members 10.0.0.1 and 10.0.0.2 on the Dqlite port, advertised
address 10.0.0.1:17070) it returns member id 1. -/
theorem resolveSurvivor_first_match :
    (∀ (members : List NodeInfo) (advertisedAddrs localAddrs : List String) (m : NodeInfo),
      resolveSurvivor members advertisedAddrs localAddrs = .ok m ↔
        (survivorHosts members advertisedAddrs localAddrs).contains (hostOf m.address) = true ∧
        ∃ pre post, members = pre ++ m :: post ∧
          ∀ x ∈ pre,
            (survivorHosts members advertisedAddrs localAddrs).contains (hostOf x.address) = false) ∧
    (∀ (members : List NodeInfo) (advertisedAddrs localAddrs : List String),
      resolveSurvivor members advertisedAddrs localAddrs = .error .leaderNotFound ↔
        ∀ x ∈ members,
          (survivorHosts members advertisedAddrs localAddrs).contains (hostOf x.address) = false) ∧
    resolveSurvivor
      [{ id := 1, address := "10.0.0.1:17666", role := 0 },
       { id := 2, address := "10.0.0.2:17666", role := 0 }]
      ["10.0.0.1:17070"] [] =
      .ok { id := 1, address := "10.0.0.1:17666", role := 0 } := by
  refine ⟨?_, ?_, ?_⟩
  · intro members advertisedAddrs localAddrs m
    rw [resolveSurvivor_ok_iff, List.find?_eq_some]
    simp only [Bool.not_eq_true']
  · intro members advertisedAddrs localAddrs
    rw [resolveSurvivor_error_iff, List.find?_eq_none]
    simp only [Bool.not_eq_true]
  · rfl

/-- C5: `ExternalIPs` returns exactly the rendered IPv4 addresses of
non-loopback IPs bound to up, non-loopback interfaces (so loopback and plain
IPv6 addresses never appear), fails with a juju NotFound error exactly when
that set is empty, and has no other outcome. -/
theorem ExternalIPs_exact :
    (∀ (ifaces : List Iface) (out : List String) (s : String),
      ExternalIPs ifaces = .ok out →
        (s ∈ out ↔ ∃ iface ∈ ifaces, iface.up = true ∧ iface.loopback = false ∧
          ∃ ip ∈ iface.addrs, ip.isLoopback = false ∧ ∃ q, ip.to4 = some q ∧ s = quadString q)) ∧
    (∀ ifaces : List Iface,
      ExternalIPs ifaces = .error (.notFound "ip addresses") ↔
        ∀ s : String, ¬ ∃ iface ∈ ifaces, iface.up = true ∧ iface.loopback = false ∧
          ∃ ip ∈ iface.addrs, ip.isLoopback = false ∧ ∃ q, ip.to4 = some q ∧ s = quadString q) ∧
    (∀ ifaces : List Iface, (∃ out, ExternalIPs ifaces = .ok out) ∨
      ExternalIPs ifaces = .error (.notFound "ip addresses")) := by
  refine ⟨?_, ?_, ?_⟩
  · intro ifaces out s h
    simp only [ExternalIPs] at h
    split at h
    · cases h
    · rw [Except.ok.injEq] at h
      subst h
      exact mem_collectIPs ifaces s
  · intro ifaces
    simp only [ExternalIPs]
    split
    · rename_i hemp
      simp only [List.isEmpty_iff] at hemp
      simp only [true_iff, eq_self_iff_true]
      intro s hq
      have : s ∈ collectIPs ifaces := (mem_collectIPs ifaces s).mpr hq
      rw [hemp] at this
      cases this
    · rename_i hemp
      constructor
      · intro h
        cases h
      · intro hnone
        exfalso
        apply hemp
        rw [List.isEmpty_iff]
        cases hc : collectIPs ifaces with
        | nil => rfl
        | cons x t =>
          exfalso
          apply hnone x
          apply (mem_collectIPs ifaces x).mp
          rw [hc]
          exact List.mem_cons_self x t
  · intro ifaces
    simp only [ExternalIPs]
    split
    · exact Or.inr rfl
    · exact Or.inl ⟨collectIPs ifaces, rfl⟩

/-- Witness for C5: concrete run of `ExternalIPs` on one up, non-loopback
interface holding 10.0.0.1. -/
theorem ExternalIPs_exact_witness :
    "10.0.0.1" ∈ ["10.0.0.1"] ↔
      ∃ iface ∈ [Iface.mk true false [GoIP.ipv4 10 0 0 1]],
        iface.up = true ∧ iface.loopback = false ∧
        ∃ ip ∈ iface.addrs, ip.isLoopback = false ∧
          ∃ q, ip.to4 = some q ∧ "10.0.0.1" = quadString q :=
  ExternalIPs_exact.1 [Iface.mk true false [GoIP.ipv4 10 0 0 1]] ["10.0.0.1"] "10.0.0.1" rfl

theorem dirExists_mkdirAll_self (w : World) (dir : String) (mode : Nat) :
    dirExists (mkdirAll w dir mode) dir = true := by
  unfold mkdirAll dirExists
  split
  · rename_i h
    exact h
  · simp [List.any_append]

theorem mkdirAll_files (w : World) (dir : String) (mode : Nat) :
    (mkdirAll w dir mode).files = w.files := by
  unfold mkdirAll
  split <;> rfl

theorem mkdirAll_raft (w : World) (dir : String) (mode : Nat) :
    (mkdirAll w dir mode).raftMembers = w.raftMembers := by
  unfold mkdirAll
  split <;> rfl

theorem mkdirAll_new (w : World) (dir : String) (mode : Nat)
    (h : dirExists w dir = false) :
    (mkdirAll w dir mode).dirs = w.dirs ++ [(dir, mode)] := by
  unfold mkdirAll
  unfold dirExists at h
  simp [h]

theorem mkdirAll_existing (w : World) (dir : String) (mode : Nat)
    (h : dirExists w dir = true) : mkdirAll w dir mode = w := by
  unfold mkdirAll
  unfold dirExists at h
  simp [h]

/-- C6: `EnsureDataDir` on a manager that has not yet ensured its data dir
returns the path `<agent DataDir>/dqlite`, creates that directory with mode
0700 (448) when it is absent (touching nothing else in the world, and leaving
the world entirely unchanged when the directory already exists), and every
subsequent call returns the same path with no further filesystem effect. -/
theorem EnsureDataDir_idempotent (m : NodeManager) (w : World) (h : m.dataDir = "") :
    (EnsureDataDir m w).1 = joinPath m.cfg.DataDir dqliteDataDir ∧
    (EnsureDataDir m w).2.1.dataDir = (EnsureDataDir m w).1 ∧
    dirExists (EnsureDataDir m w).2.2 (EnsureDataDir m w).1 = true ∧
    (dirExists w (EnsureDataDir m w).1 = false →
      (EnsureDataDir m w).2.2.dirs = w.dirs ++ [((EnsureDataDir m w).1, 448)]) ∧
    (dirExists w (EnsureDataDir m w).1 = true → (EnsureDataDir m w).2.2 = w) ∧
    (EnsureDataDir m w).2.2.files = w.files ∧
    (EnsureDataDir m w).2.2.raftMembers = w.raftMembers ∧
    EnsureDataDir (EnsureDataDir m w).2.1 (EnsureDataDir m w).2.2 =
      ((EnsureDataDir m w).1, (EnsureDataDir m w).2.1, (EnsureDataDir m w).2.2) := by
  have hne := joinPath_dqlite_ne_empty m.cfg.DataDir
  simp only [EnsureDataDir, h, if_pos rfl]
  refine ⟨rfl, rfl, dirExists_mkdirAll_self _ _ _, ?_, ?_, mkdirAll_files _ _ _,
    mkdirAll_raft _ _ _, ?_⟩
  · intro habs
    exact mkdirAll_new _ _ _ habs
  · intro hex
    exact mkdirAll_existing _ _ _ hex
  · simp [hne]

/-- Witness for C6: concrete first call on a fresh manager over an empty
world returns the default dqlite data path. -/
theorem EnsureDataDir_idempotent_witness :
    (EnsureDataDir (NewNodeManager exampleConfig) emptyWorld).1 = "/var/lib/juju/dqlite" :=
  ((EnsureDataDir_idempotent (NewNodeManager exampleConfig) emptyWorld rfl).1).trans rfl

/-- C3: `SetClusterServers` collapses the consensus log before the registry.
When the node store opens, a failing `ReconfigureMembership` aborts the call
with the annotated error and the world — in particular the node store file —
entirely unchanged; on success the Raft log holds the input list and the same
list is then written to the node store; and any change to the stored registry
file implies the consensus-log rewrite succeeded first. -/
theorem SetClusterServers_two_phase (env : Env) (m : NodeManager) (w : World)
    (servers ss : List NodeInfo) (hstore : nodeClusterStore m w = .ok ss) :
    (∀ e, env.reconfigureOutcome = some e →
      SetClusterServers env m w servers =
        (.error (.annotated "reconfiguring Dqlite cluster membership" e), w)) ∧
    (env.reconfigureOutcome = none →
      SetClusterServers env m w servers =
        (.ok (), storeSet m { w with raftMembers := servers } servers) ∧
      (SetClusterServers env m w servers).2.raftMembers = servers ∧
      lookupFile (SetClusterServers env m w servers).2.files
        (joinPath m.dataDir dqliteClusterFileName) = some (.servers servers)) ∧
    (lookupFile (SetClusterServers env m w servers).2.files
        (joinPath m.dataDir dqliteClusterFileName) ≠
      lookupFile w.files (joinPath m.dataDir dqliteClusterFileName) →
      env.reconfigureOutcome = none ∧
      (SetClusterServers env m w servers).2.raftMembers = servers) := by
  refine ⟨?_, ?_, ?_⟩
  · intro e he
    simp [SetClusterServers, hstore, ReconfigureMembership, he]
  · intro hn
    refine ⟨?_, ?_, ?_⟩ <;>
      simp [SetClusterServers, hstore, ReconfigureMembership, hn, storeSet,
        lookupFile_writeFile_self]
  · intro hchange
    cases ho : env.reconfigureOutcome with
    | some e =>
      exfalso
      apply hchange
      simp [SetClusterServers, hstore, ReconfigureMembership, ho]
    | none =>
      refine ⟨rfl, ?_⟩
      simp [SetClusterServers, hstore, ReconfigureMembership, ho, storeSet]

/-- Witness for C3: with a successful reconfiguration oracle, the concrete
collapse to a single server writes both the Raft log and cluster.yaml. -/
theorem SetClusterServers_two_phase_witness :
    SetClusterServers ⟨none⟩ exampleManager emptyWorld [exampleServer] =
      (.ok (), { dirs := [],
                 files := [("/var/lib/juju/dqlite/cluster.yaml", .servers [exampleServer])],
                 raftMembers := [exampleServer] }) :=
  (((SetClusterServers_two_phase ⟨none⟩ exampleManager emptyWorld [exampleServer] []
    rfl).2.1 rfl).1).trans rfl

/-- C7: round-trip. A successful `SetClusterServers` followed by
`ClusterServers` returns exactly the written list (same records in the same
order), and reading after a bare node-store `Set` does likewise. -/
theorem SetClusterServers_ClusterServers_roundtrip :
    (∀ (env : Env) (m : NodeManager) (w : World) (servers : List NodeInfo) (w' : World),
      SetClusterServers env m w servers = (.ok (), w') →
      ClusterServers m w' = .ok servers) ∧
    (∀ (m : NodeManager) (w : World) (servers : List NodeInfo),
      ClusterServers m (storeSet m w servers) = .ok servers) := by
  have hset : ∀ (m : NodeManager) (w : World) (servers : List NodeInfo),
      ClusterServers m (storeSet m w servers) = .ok servers := by
    intro m w servers
    simp [ClusterServers, nodeClusterStore, storeSet, lookupFile_writeFile_self]
  refine ⟨?_, hset⟩
  intro env m w servers w' h
  unfold SetClusterServers at h
  cases hstore : nodeClusterStore m w with
  | error e =>
    rw [hstore] at h
    cases h
  | ok ss =>
    rw [hstore] at h
    unfold ReconfigureMembership at h
    cases ho : env.reconfigureOutcome with
    | some e =>
      rw [ho] at h
      cases h
    | none =>
      rw [ho] at h
      rw [Prod.mk.injEq] at h
      rw [← h.2]
      exact hset m _ servers

/-- Witness for C7: reading back the concrete collapsed world returns the
single-server list that was written. -/
theorem SetClusterServers_ClusterServers_roundtrip_witness :
    ClusterServers exampleManager
      { dirs := [],
        files := [("/var/lib/juju/dqlite/cluster.yaml", .servers [exampleServer])],
        raftMembers := [exampleServer] } = .ok [exampleServer] :=
  SetClusterServers_ClusterServers_roundtrip.1 ⟨none⟩ exampleManager emptyWorld
    [exampleServer] _ rfl

/-- C8: `SetNodeInfo` rewrites only the machine's own identity record: it
writes the marshalled record to `info.yaml` in the Dqlite data directory and
leaves the membership registry file `cluster.yaml` (hence `ClusterServers`),
the Raft log membership, the directories, and every other file unchanged. -/
theorem SetNodeInfo_frame (m : NodeManager) (w : World) (server : NodeInfo) :
    lookupFile (SetNodeInfo m w server).files (joinPath m.dataDir "info.yaml") =
      some (.node server) ∧
    (SetNodeInfo m w server).raftMembers = w.raftMembers ∧
    (SetNodeInfo m w server).dirs = w.dirs ∧
    lookupFile (SetNodeInfo m w server).files (joinPath m.dataDir dqliteClusterFileName) =
      lookupFile w.files (joinPath m.dataDir dqliteClusterFileName) ∧
    ClusterServers m (SetNodeInfo m w server) = ClusterServers m w ∧
    ∀ p, p ≠ joinPath m.dataDir "info.yaml" →
      lookupFile (SetNodeInfo m w server).files p = lookupFile w.files p := by
  have hne : joinPath m.dataDir dqliteClusterFileName ≠ joinPath m.dataDir "info.yaml" :=
    joinPath_ne_of_length (by decide)
  have hcluster : lookupFile (SetNodeInfo m w server).files
      (joinPath m.dataDir dqliteClusterFileName) =
      lookupFile w.files (joinPath m.dataDir dqliteClusterFileName) :=
    lookupFile_writeFile_ne w.files (joinPath m.dataDir "info.yaml") (.node server)
      (joinPath m.dataDir dqliteClusterFileName) hne
  refine ⟨lookupFile_writeFile_self _ _ _, rfl, rfl, hcluster, ?_, ?_⟩
  · unfold ClusterServers nodeClusterStore
    rw [show (SetNodeInfo m w server).files =
      writeFile w.files (joinPath m.dataDir "info.yaml") (.node server) from rfl] at hcluster ⊢
    rw [hcluster]
  · intro p hp
    exact lookupFile_writeFile_ne w.files (joinPath m.dataDir "info.yaml") (.node server) p hp

/-- Witness for C8: concretely, writing info.yaml leaves the (absent)
cluster.yaml lookup unchanged. -/
theorem SetNodeInfo_frame_witness :
    lookupFile (SetNodeInfo exampleManager emptyWorld exampleServer).files
      "/var/lib/juju/dqlite/cluster.yaml" =
    lookupFile emptyWorld.files "/var/lib/juju/dqlite/cluster.yaml" :=
  (SetNodeInfo_frame exampleManager emptyWorld exampleServer).2.2.2.2.2
    "/var/lib/juju/dqlite/cluster.yaml" (by decide)

/-- Counterexample to C1: a successful run of the orchestrator over a
two-member cluster leaves the consensus log and the registry at two members —
no leader resolution happens and no collapse is performed, contradicting the
claimed completion through ConsensusLogCollapsed and RegistryCollapsed. -/
theorem mainRun_no_collapse :
    ∃ servers w', mainRun exampleConfig twoServerWorld = .ok (servers, w') ∧
      servers = [exampleServer, exampleServer2] ∧
      w'.raftMembers = [exampleServer, exampleServer2] ∧
      w'.raftMembers.length ≠ 1 ∧
      lookupFile w'.files "/var/lib/juju/dqlite/cluster.yaml" =
        some (.servers [exampleServer, exampleServer2]) := by
  refine ⟨[exampleServer, exampleServer2], _, rfl, rfl, rfl, by decide, rfl⟩

/-- C1 amended: every successful run of the orchestrator in `main` ensures
the data directory exists, reads the current membership from the node store
and reports it; it performs no collapse — the Raft log membership and every
file are unchanged, only the Dqlite data directory is ensured. -/
theorem mainRun_reads_and_reports (cfg : configInternal) (w : World)
    (servers : List NodeInfo) (w' : World)
    (h : mainRun cfg w = .ok (servers, w')) :
    w' = (EnsureDataDir (NewNodeManager cfg) w).2.2 ∧
    w'.files = w.files ∧
    w'.raftMembers = w.raftMembers ∧
    dirExists w' (joinPath cfg.DataDir dqliteDataDir) = true ∧
    ClusterServers { NewNodeManager cfg with dataDir := joinPath cfg.DataDir dqliteDataDir }
      w' = .ok servers := by
  have hE : EnsureDataDir (NewNodeManager cfg) w =
      (joinPath cfg.DataDir dqliteDataDir,
       { NewNodeManager cfg with dataDir := joinPath cfg.DataDir dqliteDataDir },
       mkdirAll w (joinPath cfg.DataDir dqliteDataDir) 448) := rfl
  simp only [mainRun] at h
  rw [hE] at h
  cases hc : ClusterServers
      { NewNodeManager cfg with dataDir := joinPath cfg.DataDir dqliteDataDir }
      (mkdirAll w (joinPath cfg.DataDir dqliteDataDir) 448) with
  | error e =>
    rw [hc] at h
    cases h
  | ok ns =>
    rw [hc] at h
    rw [Except.ok.injEq, Prod.mk.injEq] at h
    obtain ⟨rfl, rfl⟩ := h
    refine ⟨by rw [hE], mkdirAll_files _ _ _, mkdirAll_raft _ _ _,
      dirExists_mkdirAll_self _ _ _, hc⟩

/-- Witness for the amended C1: the concrete successful run over the
two-member world leaves the Raft membership untouched. -/
theorem mainRun_reads_and_reports_witness :
    ({ dirs := [("/var/lib/juju/dqlite", 448)]
       files := [("/var/lib/juju/dqlite/cluster.yaml",
         FileContent.servers [exampleServer, exampleServer2])]
       raftMembers := [exampleServer, exampleServer2] } : World).raftMembers =
      twoServerWorld.raftMembers :=
  (mainRun_reads_and_reports exampleConfig twoServerWorld [exampleServer, exampleServer2]
    { dirs := [("/var/lib/juju/dqlite", 448)]
      files := [("/var/lib/juju/dqlite/cluster.yaml",
        FileContent.servers [exampleServer, exampleServer2])]
      raftMembers := [exampleServer, exampleServer2] } rfl).2.2.1

/-- Counterexample to C4: a membership of size 1 on a non-loopback address
is an existing node, yet `IsBootstrappedNode` — the code's
already-bootstrapped / no-op report — returns false, so the procedure does
not report no-op success for every membership of size 1. -/
theorem IsBootstrappedNode_size_one_not_noop :
    ClusterServers { NewNodeManager exampleConfig with dataDir := "/var/lib/juju/dqlite" }
      singleRemoteWorld = .ok [exampleServer] ∧
    [exampleServer].length = 1 ∧
    (IsExistingNode (NewNodeManager exampleConfig) singleRemoteWorld).1 = true ∧
    IsBootstrappedNode (NewNodeManager exampleConfig) singleRemoteWorld = .ok false :=
  ⟨rfl, rfl, rfl, rfl⟩

/-- C4 amended: for an existing node, `IsBootstrappedNode` reports the no-op
"already bootstrapped" condition exactly when the stored membership has one
member and that member's address starts with the loopback bootstrap bind IP;
a single member on any other address reports false. The check performs reads
only (it returns a bare report and leaves the world to its caller), and the
orchestrator never invokes survivor resolution. -/
theorem IsBootstrappedNode_single_loopback (m : NodeManager) (w : World)
    (servers : List NodeInfo)
    (hex : (IsExistingNode m w).1 = true)
    (hcs : ClusterServers (IsExistingNode m w).2.1 (IsExistingNode m w).2.2 = .ok servers) :
    (servers.length = 1 →
      IsBootstrappedNode m w =
        .ok (hasPrefixGo (servers.headD default).address dqliteBootstrapBindIP)) ∧
    (servers.length ≠ 1 → IsBootstrappedNode m w = .ok false) := by
  rcases hval : IsExistingNode m w with ⟨extant, m1, w1⟩
  rw [hval] at hex hcs
  dsimp only at hex hcs
  subst hex
  constructor
  · intro hlen
    simp [IsBootstrappedNode, hval, hcs, hlen]
  · intro hlen
    simp [IsBootstrappedNode, hval, hcs, hlen]

/-- Witness for the amended C4: the single loopback-bound member scenario
reports already bootstrapped. -/
theorem IsBootstrappedNode_single_loopback_witness :
    IsBootstrappedNode (NewNodeManager exampleConfig)
      { dirs := []
        files := [("/var/lib/juju/dqlite/cluster.yaml",
          FileContent.servers [{ id := 1, address := "127.0.0.1:17666", role := 0 }])]
        raftMembers := [{ id := 1, address := "127.0.0.1:17666", role := 0 }] } = .ok true :=
  ((IsBootstrappedNode_single_loopback (NewNodeManager exampleConfig)
    { dirs := []
      files := [("/var/lib/juju/dqlite/cluster.yaml",
        FileContent.servers [{ id := 1, address := "127.0.0.1:17666", role := 0 }])]
      raftMembers := [{ id := 1, address := "127.0.0.1:17666", role := 0 }] }
    [{ id := 1, address := "127.0.0.1:17666", role := 0 }] rfl rfl).1 rfl).trans rfl

theorem stringLengthEqZero (s : String) : s.length = 0 ↔ s = "" := by
  constructor
  · intro h
    cases s with
    | mk data =>
      have hd : data = [] := List.eq_nil_of_length_eq_zero h
      rw [hd]
  · intro h
    rw [h]
    rfl

theorem unmarshal_ok_fields (env : ParseEnv) (format : format_2_0Serialization)
    (cfg : configInternal) (h : formatter_2_0.unmarshal env format = .ok cfg) :
    cfg.apiDetails = (if format.apiAddresses.length > 0
      then some { addresses := format.apiAddresses } else none) ∧
    cfg.servingInfo = (if format.controllerKey.length ≠ 0
      then some (servingInfoOf format) else none) ∧
    cfg.caCert = format.caCert := by
  simp only [formatter_2_0.unmarshal] at h
  cases h1 : env.parseTag format.tag with
  | none => rw [h1] at h; cases h
  | some tag =>
    rw [h1] at h
    cases h2 : env.parseControllerTag format.controller with
    | none => rw [h2] at h; cases h
    | some ctag =>
      rw [h2] at h
      cases h3 : env.parseModelTag format.model with
      | none => rw [h3] at h; cases h
      | some mtag =>
        rw [h3] at h
        rw [Except.ok.injEq] at h
        subst h
        by_cases ha : format.apiAddresses.length > 0 <;>
          by_cases hk : format.controllerKey.length ≠ 0 <;>
            simp [ha, hk, servingInfoOf]

/-- C9: a config produced by the 2.0 formatter from a file with no
apiaddresses entries answers `APIAddresses` with an empty slice together
with an error; with addresses present it stores them and answers with a
fresh element-wise copy of the stored slice (equal in value to it) and no
error. -/
theorem APIAddresses_empty_error_or_copy (env : ParseEnv)
    (format : format_2_0Serialization) (cfg : configInternal)
    (h : formatter_2_0.unmarshal env format = .ok cfg) :
    (format.apiAddresses = [] →
      cfg.APIAddresses = ([], some (.generic "No apidetails in config"))) ∧
    (format.apiAddresses ≠ [] →
      cfg.apiDetails = some { addresses := format.apiAddresses } ∧
      cfg.APIAddresses = (format.apiAddresses, none) ∧
      cfg.APIAddresses.1 = copySlice format.apiAddresses) := by
  obtain ⟨hapi, -, -⟩ := unmarshal_ok_fields env format cfg h
  constructor
  · intro hempty
    have hnone : cfg.apiDetails = none := by
      rw [hapi]
      simp [hempty]
    simp [configInternal.APIAddresses, hnone]
  · intro hne
    have hlen : format.apiAddresses.length > 0 := List.length_pos.mpr hne
    have hsome : cfg.apiDetails = some { addresses := format.apiAddresses } := by
      rw [hapi]
      simp [hlen]
    refine ⟨hsome, ?_, ?_⟩
    · simp [configInternal.APIAddresses, hsome, copySlice_eq]
    · simp [configInternal.APIAddresses, hsome, copySlice_eq]

/-- Witness for C9: the concrete parsed config without apiaddresses answers
with the empty slice and the error. -/
theorem APIAddresses_empty_error_or_copy_witness :
    exampleParsedConfig.APIAddresses = ([], some (.generic "No apidetails in config")) :=
  (APIAddresses_empty_error_or_copy exampleParseEnv exampleFormatNoAPI
    exampleParsedConfig rfl).1 rfl

/-- C10: a config produced by the 2.0 formatter has state serving info
exactly when the serialized controllerkey field was non-empty; when it is
absent, `StateServingInfo` answers the zero value and false, and
`WithTLSOption` on a NodeManager over that config fails with a juju
NotSupported error instead of producing a TLS option. -/
theorem StateServingInfo_iff_controllerKey (env : ParseEnv) (tlsEnv : TLSEnv)
    (format : format_2_0Serialization) (cfg : configInternal)
    (h : formatter_2_0.unmarshal env format = .ok cfg) :
    (cfg.servingInfo.isSome = true ↔ format.controllerKey ≠ "") ∧
    (format.controllerKey = "" →
      cfg.StateServingInfo = (default, false) ∧
      NodeManager.WithTLSOption tlsEnv (NewNodeManager cfg) =
        .error (.notSupported
          "Dqlite node initialisation on non-controller machine/container")) := by
  obtain ⟨-, hserv, -⟩ := unmarshal_ok_fields env format cfg h
  have hiff : format.controllerKey.length ≠ 0 ↔ format.controllerKey ≠ "" :=
    not_congr (stringLengthEqZero format.controllerKey)
  constructor
  · rw [hserv]
    by_cases hk : format.controllerKey.length ≠ 0
    · rw [if_pos hk]
      exact iff_of_true rfl (hiff.mp hk)
    · rw [if_neg hk]
      exact iff_of_false (by decide) (fun hne => hk (hiff.mpr hne))
  · intro hkey
    have hk : ¬(format.controllerKey.length ≠ 0) := fun hx => (hiff.mp hx) hkey
    have hnone : cfg.servingInfo = none := by
      rw [hserv]
      simp [hk]
    refine ⟨?_, ?_⟩
    · simp [configInternal.StateServingInfo, hnone]
    · simp [NodeManager.WithTLSOption, NewNodeManager, configInternal.StateServingInfo, hnone]

/-- Witness for C10: the concrete parsed config with an empty controllerkey
reports no serving info and a NotSupported TLS option. -/
theorem StateServingInfo_iff_controllerKey_witness :
    exampleParsedConfig.StateServingInfo = (default, false) ∧
    NodeManager.WithTLSOption exampleTLSEnv (NewNodeManager exampleParsedConfig) =
      .error (.notSupported
        "Dqlite node initialisation on non-controller machine/container") :=
  (StateServingInfo_iff_controllerKey exampleParseEnv exampleTLSEnv exampleFormatNoAPI
    exampleParsedConfig rfl).2 rfl
